import Mathlib

/-!
Verification of the `nurnatur` asset-generation utilities.

This file gives a shallow embedding of the two Python scripts

  * `src/utils/image_generator.py` — the resumable batch-generation driver
    (spec "Variant B": fixed/chaining anchor), and
  * `src/utils/optimize_assets.py` — the PNG→WebP format-conversion walk,

and proves the specification's claims about them.  External effects
(the Replicate provider, HTTP fetches, PIL decoding/encoding) are modelled
as oracle functions; the file system is an association list from paths to
byte contents; the observable actions of a run (provider calls, file
writes, throttle sleeps) are recorded in an event trace.
-/

namespace NurNatur

/-- Image contents: raw bytes, abstracted as a list of byte values. -/
abbrev Bytes := List Nat

/-- Python `str.strip()`: drop leading and trailing whitespace (the source
only meets ASCII whitespace). -/
def pyStrip (s : String) : String :=
  String.mk (((s.data.dropWhile Char.isWhitespace).reverse.dropWhile
    Char.isWhitespace).reverse)

/-- Python `str.startswith(p)`. -/
def pyStartsWith (s p : String) : Bool :=
  p.data.isPrefixOf s.data

/-- Equality of `Except` results is decidable (needed to evaluate the
model on concrete runs). -/
instance exceptDecidableEq {ε α : Type} [DecidableEq ε] [DecidableEq α] :
    DecidableEq (Except ε α) := fun x y =>
  match x, y with
  | .ok a, .ok b =>
      if h : a = b then .isTrue (by rw [h]) else
        .isFalse (fun hc => h (Except.ok.inj hc))
  | .error a, .error b =>
      if h : a = b then .isTrue (by rw [h]) else
        .isFalse (fun hc => h (Except.error.inj hc))
  | .ok _, .error _ => .isFalse (fun hc => Except.noConfusion hc)
  | .error _, .ok _ => .isFalse (fun hc => Except.noConfusion hc)

/-- Paths relevant to the generator script.  `anchor` is `ANCHOR_PATH`
(`anchor.png` next to the script); `out fname` is `OUT_DIR / f"{fname}.png"`.
Distinct filename stems give distinct files, and the anchor lives outside
`OUT_DIR`, so this inductive is a faithful path model. -/
inductive GPath where
  | anchor : GPath
  | out (fname : String) : GPath
deriving DecidableEq, Repr

/-- The file system visible to the generator: a finite map from paths to
file contents, as an association list. -/
abbrev FS := List (GPath × Bytes)

/-- `Path.exists` / reading a file: look a path up in the file system. -/
def FS.lookup (fs : FS) (p : GPath) : Option Bytes :=
  match fs with
  | [] => none
  | (q, b) :: rest => if q = p then some b else FS.lookup rest p

/-- `Path.write_bytes`: create or overwrite the file at `p` with `b`. -/
def FS.write (fs : FS) (p : GPath) (b : Bytes) : FS :=
  match fs with
  | [] => [(p, b)]
  | (q, c) :: rest => if q = p then (p, b) :: rest else (q, c) :: FS.write rest p b

/-- The shape of the value `client.run` returns (`run_flux`'s `result`):
raw `bytes`, a `str`, a file-like object with a `read` method (modelled by
the bytes that `read()` yields), or any other object. -/
inductive FluxResult where
  | bytes (b : Bytes) : FluxResult
  | str (s : String) : FluxResult
  | stream (b : Bytes) : FluxResult
  | other : FluxResult
deriving DecidableEq, Repr

/-- Outcome of `requests.get(url); resp.raise_for_status()`: a 2xx body,
a non-2xx status (`raise_for_status` throws), or a network failure
(`requests.get` throws). -/
inductive FetchResult where
  | ok (b : Bytes) : FetchResult
  | httpStatusError : FetchResult
  | networkFailure : FetchResult
deriving DecidableEq, Repr

/-- Exceptions that can escape `run_flux` into the main loop. -/
inductive ProvErr where
  | fetchHttpError : ProvErr
  | fetchNetworkFailure : ProvErr
  | unexpectedResultType : ProvErr
deriving DecidableEq, Repr

/-- The provider oracle: what `client.run(MODEL, input={prompt, input_image,
aspect_ratio})` returns for a given prompt and reference-image path. -/
abbrev Provider := String → GPath → FluxResult

/-- The fetch oracle: what `requests.get(url, timeout=60)` yields. -/
abbrev Fetch := String → FetchResult

/-- The scheme prefix `run_flux` tests URL candidates against. -/
def httpPrefix : String := "http"

/-- `run_flux(prompt, img_path)`: call the model with the prompt and the
reference image and turn the result into raw image bytes.
`result` may be bytes, a URL string, or a file-like stream; anything else
raises `RuntimeError` (a `str` not starting with `"http"` has no `read`
attribute, so it also falls through to the `raise`). -/
def run_flux (provider : Provider) (fetch : Fetch) (prompt : String)
    (img_path : GPath) : Except ProvErr Bytes :=
  match provider prompt img_path with
  | .bytes b => .ok b
  | .str s =>
      if pyStartsWith s httpPrefix then
        match fetch s with
        | .ok b => .ok b
        | .httpStatusError => .error .fetchHttpError
        | .networkFailure => .error .fetchNetworkFailure
      else .error .unexpectedResultType
  | .stream b => .ok b
  | .other => .error .unexpectedResultType

/-- How many times `run_flux (provider, fetch, prompt, img_path)` invokes
`requests.get`: exactly once when the result is an http-prefixed string
(whether or not the fetch succeeds — there is no retry), never otherwise. -/
def run_flux_fetch_count (provider : Provider) (prompt : String)
    (img_path : GPath) : Nat :=
  match provider prompt img_path with
  | .str s => if pyStartsWith s httpPrefix then 1 else 0
  | _ => 0

/-- One row of `prompts.csv` (columns `filename`, `prompt`), before the
`.strip()` the loop applies. -/
structure WorkRow where
  filename : String
  prompt : String
deriving DecidableEq, Repr

/-- The output path of a row: `OUT_DIR / f"{fname}.png"` with
`fname = row["filename"].strip()`. -/
def WorkRow.outPath (row : WorkRow) : GPath :=
  GPath.out (pyStrip row.filename)

/-- Observable actions of one run, in order of occurrence. -/
inductive Event where
  | mkdirOut : Event
  | providerCall (prompt : String) (ref : GPath) : Event
  | write (p : GPath) (b : Bytes) : Event
  | sleepThrottle : Event
deriving DecidableEq, Repr

/-- Result of (the rest of) a run: the final file system, the final
`last_img_path`, the events this part of the run performed, and the
exception that aborted it, if any. -/
structure RunOutcome where
  fs : FS
  lastImg : GPath
  events : List Event
  err : Option ProvErr
deriving DecidableEq, Repr

/-- One iteration of the `for row in rows` loop body of `main`:
strip the fields, skip if the output exists (advancing `last_img_path` to
it), otherwise call `run_flux`, write the bytes, advance `last_img_path`
and sleep `RATE_LIMIT_SEC`. -/
def processItem (provider : Provider) (fetch : Fetch) (fs : FS)
    (last_img_path : GPath) (row : WorkRow) : RunOutcome :=
  let fname := pyStrip row.filename
  let prompt := pyStrip row.prompt
  let out_path := GPath.out fname
  if (FS.lookup fs out_path).isSome then
    { fs := fs, lastImg := out_path, events := [], err := none }
  else
    match run_flux provider fetch prompt last_img_path with
    | .error e =>
        { fs := fs, lastImg := last_img_path,
          events := [Event.providerCall prompt last_img_path], err := some e }
    | .ok img_bytes =>
        { fs := FS.write fs out_path img_bytes, lastImg := out_path,
          events := [Event.providerCall prompt last_img_path,
                     Event.write out_path img_bytes, Event.sleepThrottle],
          err := none }

/-- The `for row in rows` loop of `main`: process rows in order; an
uncaught exception aborts the whole run, leaving earlier effects in place. -/
def runRows (provider : Provider) (fetch : Fetch) : List WorkRow → FS → GPath → RunOutcome
  | [], fs, last_img_path =>
      { fs := fs, lastImg := last_img_path, events := [], err := none }
  | row :: rest, fs, last_img_path =>
      let o := processItem provider fetch fs last_img_path row
      match o.err with
      | some e => { fs := o.fs, lastImg := o.lastImg, events := o.events, err := some e }
      | none =>
          let o₂ := runRows provider fetch rest o.fs o.lastImg
          { fs := o₂.fs, lastImg := o₂.lastImg,
            events := o.events ++ o₂.events, err := o₂.err }

/-- Errors terminating a run, configuration failures included. -/
inductive RunError where
  | configAnchorMissing : RunError
  | configEmptyWorkList : RunError
  | provider (e : ProvErr) : RunError
deriving DecidableEq, Repr

/-- Whether a `RunError` is one of the `ConfigurationError`s (`SystemExit`
raised before any provider call: missing anchor file, empty work list). -/
def RunError.isConfig : RunError → Bool
  | .configAnchorMissing => true
  | .configEmptyWorkList => true
  | .provider _ => false

/-- Result of a whole `main()` run. -/
structure MainOutcome where
  fs : FS
  events : List Event
  err : Option RunError
deriving DecidableEq, Repr

/-- `main()`: check the anchor exists, create `OUT_DIR`, read the rows,
fail if there are none, then run the loop with `last_img_path` initialised
to `ANCHOR_PATH`. -/
def main (provider : Provider) (fetch : Fetch) (rows : List WorkRow)
    (fs : FS) : MainOutcome :=
  if (FS.lookup fs GPath.anchor).isSome then
    if rows = [] then
      { fs := fs, events := [Event.mkdirOut], err := some RunError.configEmptyWorkList }
    else
      let o := runRows provider fetch rows fs GPath.anchor
      { fs := o.fs, events := Event.mkdirOut :: o.events,
        err := o.err.map RunError.provider }
  else
    { fs := fs, events := [], err := some RunError.configAnchorMissing }

/-- `API_TOKEN = os.getenv("REPLICATE_API_TOKEN")` followed by the
`if not API_TOKEN: raise SystemExit(...)` check and the subsequent
`API_TOKEN.strip()`.  In Python `not s` on a string is `s == ""`;
the strip happens only after the check passed. -/
def tokenCheck (envToken : Option String) : Except Unit String :=
  match envToken with
  | none => .error ()
  | some s => if s = "" then .error () else .ok (pyStrip s)

/-! ### Embedding of `src/utils/optimize_assets.py` -/

/-- Python `str.lower()` (the source only meets ASCII extensions). -/
def pyLower (s : String) : String :=
  String.mk (s.data.map Char.toLower)

/-- Python `str.endswith(suffix)`. -/
def pyEndsWith (s suffix : String) : Bool :=
  suffix.data.isSuffixOf s.data

/-- Index of the last occurrence of `c` in `l` (Python `str.rfind`,
restricted to a hit; `none` when absent). -/
def rfindLast (c : Char) : List Char → Option Nat
  | [] => none
  | x :: xs =>
      match rfindLast c xs with
      | some i => some (i + 1)
      | none => if x = c then some (0 : Nat) else none

/-- The separator and extension characters of `posixpath`. -/
def sepChar : Char := '/'

/-- The extension separator of `posixpath.splitext`. -/
def extsepChar : Char := '.'

/-- The stem part of CPython `os.path.splitext(p)` (posix rules): split at
the last dot, provided it lies after the last `/` and the base name has a
non-dot character before it (a base name of leading dots has no extension). -/
def splitext_stem (p : String) : String :=
  let l := p.data
  match rfindLast extsepChar l with
  | none => p
  | some dotIndex =>
      let filenameIndex :=
        match rfindLast sepChar l with
        | none => 0
        | some sepIndex => sepIndex + 1
      if filenameIndex ≤ dotIndex then
        if ((l.drop filenameIndex).take (dotIndex - filenameIndex)).any
            (fun ch => ch ≠ extsepChar) then
          String.mk (l.take dotIndex)
        else p
      else p

/-- The separator string used by `posixpath.join`. -/
def sepStr : String := "/"

/-- CPython `posixpath.join(a, b)` for two components. -/
def pyJoin (a b : String) : String :=
  if pyStartsWith b sepStr then b
  else if a = "" ∨ pyEndsWith a sepStr then a ++ b
  else a ++ sepStr ++ b

/-- The source extension `optimize_images` recognises. -/
def pngSuffix : String := ".png"

/-- The target extension `optimize_images` writes. -/
def webpSuffix : String := ".webp"

/-- The encoding name passed to `img.save`. -/
def webpFormat : String := "webp"

/-- The file system seen by the conversion walk: full path → bytes. -/
abbrev OptFS := List (String × Bytes)

/-- Read the file at `p`, if present. -/
def OptFS.lookup (fs : OptFS) (p : String) : Option Bytes :=
  match fs with
  | [] => none
  | (q, b) :: rest => if q = p then some b else OptFS.lookup rest p

/-- Create or overwrite the file at `p` with contents `b`. -/
def OptFS.write (fs : OptFS) (p : String) (b : Bytes) : OptFS :=
  match fs with
  | [] => [(p, b)]
  | (q, c) :: rest => if q = p then (p, b) :: rest else (q, c) :: OptFS.write rest p b

/-- Observable actions of the conversion walk. -/
inductive OptEvent where
  | save (path : String) (format : String) (quality : Nat) (b : Bytes) : OptEvent
  | logConverted (src dst : String) : OptEvent
  | logFailed (src : String) : OptEvent
deriving DecidableEq, Repr

/-- The PIL oracle: decoding the source bytes and re-encoding them as WebP
at the given quality, or the exception this raises. -/
abbrev Convert := Bytes → Nat → Except String Bytes

/-- Quality passed to every `img.save(webp_path, 'webp', quality=85)`. -/
def webpQuality : Nat := 85

/-- `optimize_images`, applied to the `(subdir, file)` pairs the `os.walk`
yields, in walk order.  For every file whose lower-cased name ends in
`.png`: open it, derive the sibling `.webp` path, convert and save; any
exception inside the `try` (unreadable source or failing conversion) is
caught, logged, and the walk continues with the next file. -/
def optimize_images (convert : Convert) :
    List (String × String) → OptFS → OptFS × List OptEvent
  | [], fs => (fs, [])
  | (subdir, file) :: rest, fs =>
      if pyEndsWith (pyLower file) pngSuffix then
        let file_path := pyJoin subdir file
        let step : OptFS × List OptEvent :=
          match OptFS.lookup fs file_path with
          | none => (fs, [OptEvent.logFailed file_path])
          | some src =>
              let webp_path := splitext_stem file_path ++ webpSuffix
              match convert src webpQuality with
              | .error _ => (fs, [OptEvent.logFailed file_path])
              | .ok out =>
                  (OptFS.write fs webp_path out,
                   [OptEvent.save webp_path webpFormat webpQuality out,
                    OptEvent.logConverted file_path webp_path])
        let o := optimize_images convert rest step.1
        (o.1, step.2 ++ o.2)
      else
        optimize_images convert rest fs

/-- Event classifier: is this a provider invocation? -/
def Event.isProviderCall : Event → Bool
  | .providerCall _ _ => true
  | _ => false

/-- Event classifier: is this a file write? -/
def Event.isWrite : Event → Bool
  | .write _ _ => true
  | _ => false

/-- Event classifier: is this a throttle pause? -/
def Event.isSleep : Event → Bool
  | .sleepThrottle => true
  | _ => false

/-! ### Helper lemmas about the generator loop -/

theorem fs_lookup_write (fs : FS) (p q : GPath) (b : Bytes) :
    FS.lookup (FS.write fs p b) q = if p = q then some b else FS.lookup fs q := by
  induction fs with
  | nil => by_cases h : p = q <;> simp [FS.write, FS.lookup, h]
  | cons hd tl ih =>
      obtain ⟨r, c⟩ := hd
      by_cases hrp : r = p
      · subst hrp
        by_cases hq : r = q <;> simp [FS.write, FS.lookup, hq]
      · by_cases hrq : r = q <;> by_cases hpq : p = q <;>
          simp_all [FS.write, FS.lookup]

theorem processItem_skip (provider : Provider) (fetch : Fetch) (fs : FS)
    (last : GPath) (row : WorkRow)
    (h : (FS.lookup fs row.outPath).isSome = true) :
    processItem provider fetch fs last row =
      { fs := fs, lastImg := row.outPath, events := [], err := none } := by
  cases hx : FS.lookup fs (GPath.out (pyStrip row.filename)) with
  | none => simp [WorkRow.outPath, hx] at h
  | some b0 => simp [processItem, WorkRow.outPath, hx]

theorem processItem_err (provider : Provider) (fetch : Fetch) (fs : FS)
    (last : GPath) (row : WorkRow) (e : ProvErr)
    (hs : FS.lookup fs row.outPath = none)
    (hf : run_flux provider fetch (pyStrip row.prompt) last = .error e) :
    processItem provider fetch fs last row =
      { fs := fs, lastImg := last,
        events := [Event.providerCall (pyStrip row.prompt) last], err := some e } := by
  simp [WorkRow.outPath] at hs
  simp [processItem, hs, hf]

theorem processItem_run (provider : Provider) (fetch : Fetch) (fs : FS)
    (last : GPath) (row : WorkRow) (b : Bytes)
    (hs : FS.lookup fs row.outPath = none)
    (hf : run_flux provider fetch (pyStrip row.prompt) last = .ok b) :
    processItem provider fetch fs last row =
      { fs := FS.write fs row.outPath b, lastImg := row.outPath,
        events := [Event.providerCall (pyStrip row.prompt) last,
                   Event.write row.outPath b, Event.sleepThrottle],
        err := none } := by
  simp [WorkRow.outPath] at hs ⊢
  simp [processItem, hs, hf]

theorem runRows_append_ok (provider : Provider) (fetch : Fetch) (l₁ l₂ : List WorkRow)
    (fs : FS) (last : GPath)
    (h : (runRows provider fetch l₁ fs last).err = none) :
    runRows provider fetch (l₁ ++ l₂) fs last =
      { fs := (runRows provider fetch l₂ (runRows provider fetch l₁ fs last).fs
                 (runRows provider fetch l₁ fs last).lastImg).fs,
        lastImg := (runRows provider fetch l₂ (runRows provider fetch l₁ fs last).fs
                 (runRows provider fetch l₁ fs last).lastImg).lastImg,
        events := (runRows provider fetch l₁ fs last).events ++
            (runRows provider fetch l₂ (runRows provider fetch l₁ fs last).fs
                 (runRows provider fetch l₁ fs last).lastImg).events,
        err := (runRows provider fetch l₂ (runRows provider fetch l₁ fs last).fs
                 (runRows provider fetch l₁ fs last).lastImg).err } := by
  induction l₁ generalizing fs last with
  | nil => simp [runRows]
  | cons row rest ih =>
      rw [runRows] at h
      rw [List.cons_append, runRows, runRows]
      cases he : (processItem provider fetch fs last row).err with
      | some e => simp [he] at h
      | none =>
          simp only [he] at h ⊢
          rw [ih _ _ h]
          simp [List.append_assoc]

theorem runRows_all_present (provider : Provider) (fetch : Fetch)
    (rows : List WorkRow) (fs : FS) (last : GPath)
    (h : ∀ row ∈ rows, (FS.lookup fs row.outPath).isSome = true) :
    runRows provider fetch rows fs last =
      { fs := fs,
        lastImg := match rows.getLast? with
                   | none => last
                   | some r => r.outPath,
        events := [], err := none } := by
  induction rows generalizing last with
  | nil => simp [runRows]
  | cons row rest ih =>
      have hrow := h row (List.mem_cons_self row rest)
      have hrest : ∀ r ∈ rest, (FS.lookup fs r.outPath).isSome = true :=
        fun r hr => h r (List.mem_cons_of_mem row hr)
      rw [runRows, processItem_skip provider fetch fs last row hrow]
      simp only [ih row.outPath hrest]
      cases rest with
      | nil => simp
      | cons r2 rs =>
          simp only [List.getLast?_cons_cons]
          cases hg : (r2 :: rs).getLast? with
          | none =>
              have : (r2 :: rs) = [] := by
                simpa using List.getLast?_eq_none_iff.mp hg
              simp at this
          | some r => simp

theorem runRows_lastImg (provider : Provider) (fetch : Fetch)
    (rows : List WorkRow) (fs : FS) (last : GPath)
    (h : (runRows provider fetch rows fs last).err = none) :
    (runRows provider fetch rows fs last).lastImg =
      (match rows.getLast? with
       | none => last
       | some r => r.outPath) := by
  induction rows generalizing fs last with
  | nil => simp [runRows]
  | cons row rest ih =>
      rw [runRows] at h ⊢
      cases he : (processItem provider fetch fs last row).err with
      | some e => simp [he] at h
      | none =>
          simp only [he]
          have hlast : (processItem provider fetch fs last row).lastImg = row.outPath := by
            cases hx : FS.lookup fs (GPath.out (pyStrip row.filename)) with
            | none =>
                cases hf : run_flux provider fetch (pyStrip row.prompt) last with
                | error e =>
                    rw [processItem_err provider fetch fs last row e
                        (by simpa [WorkRow.outPath] using hx) hf] at he
                    simp at he
                | ok b =>
                    rw [processItem_run provider fetch fs last row b
                        (by simpa [WorkRow.outPath] using hx) hf]
            | some b0 =>
                rw [processItem_skip provider fetch fs last row
                    (by simp [WorkRow.outPath, hx])]
          simp only [he] at h
          cases rest with
          | nil => simp [runRows, hlast]
          | cons r2 rs =>
              simp only [List.getLast?_cons_cons]
              simpa using ih _ _ (by simpa using h)

/-- The event trace of a (part of a) run is well-throttled: it is a
sequence of `providerCall; write; sleepThrottle` blocks, possibly closed by
one lone `providerCall` (the call of the item whose failure aborted the
run).  In particular every write is followed at once by the throttle pause,
and pauses occur nowhere else — skipped items contribute no events. -/
def throttleShape : List Event → Bool
  | [] => true
  | Event.providerCall _ _ :: Event.write _ _ :: Event.sleepThrottle :: rest =>
      throttleShape rest
  | [Event.providerCall _ _] => true
  | _ => false

theorem runRows_throttleShape (provider : Provider) (fetch : Fetch)
    (rows : List WorkRow) (fs : FS) (last : GPath) :
    throttleShape (runRows provider fetch rows fs last).events = true := by
  induction rows generalizing fs last with
  | nil => simp [runRows, throttleShape]
  | cons row rest ih =>
      rw [runRows]
      cases hx : FS.lookup fs (GPath.out (pyStrip row.filename)) with
      | some b0 =>
          rw [processItem_skip provider fetch fs last row (by simp [WorkRow.outPath, hx])]
          simpa using ih fs row.outPath
      | none =>
          cases hf : run_flux provider fetch (pyStrip row.prompt) last with
          | error e =>
              rw [processItem_err provider fetch fs last row e
                  (by simpa [WorkRow.outPath] using hx) hf]
              simp [throttleShape]
          | ok b =>
              rw [processItem_run provider fetch fs last row b
                  (by simpa [WorkRow.outPath] using hx) hf]
              simpa [throttleShape] using
                ih (FS.write fs row.outPath b) row.outPath

/-! ### Concrete values used by the witness statements -/

/-- A work-item identifier used in concrete runs. -/
def nameA : String := "alpha"

/-- A second work-item identifier used in concrete runs. -/
def nameB : String := "beta"

/-- A concrete instruction string. -/
def promptA : String := "a mossy rock"

/-- A second concrete instruction string. -/
def promptB : String := "a pine tree"

/-- Concrete image bytes. -/
def bytesOne : Bytes := [1]

/-- More concrete image bytes. -/
def bytesTwo : Bytes := [2]

/-- A provider that always answers with inline bytes. -/
def provInline : Provider := fun _ _ => FluxResult.bytes bytesOne

/-- A provider that always answers with an unrecognised object. -/
def provOther : Provider := fun _ _ => FluxResult.other

/-- A URL string used in concrete runs. -/
def urlA : String := "http://example.test/img"

/-- A provider that always answers with a URL string. -/
def provUrl : Provider := fun _ _ => FluxResult.str urlA

/-- A fetch oracle whose requests always fail at the network level. -/
def fetchFail : Fetch := fun _ => FetchResult.networkFailure

/-- A fetch oracle that always yields `bytesTwo`. -/
def fetchOk : Fetch := fun _ => FetchResult.ok bytesTwo

/-- A concrete work row. -/
def rowA : WorkRow := { filename := nameA, prompt := promptA }

/-- A second concrete work row. -/
def rowB : WorkRow := { filename := nameB, prompt := promptB }

/-- A file system holding only the anchor image. -/
def fsAnchorOnly : FS := [(GPath.anchor, bytesOne)]

/-- A file system holding the anchor image and `rowA`'s output. -/
def fsWithAlpha : FS := [(GPath.anchor, bytesOne), (GPath.out nameA, bytesTwo)]

/-- A whitespace-only credential string. -/
def blankToken : String := " "

/-- A credential string with surrounding whitespace. -/
def paddedToken : String := " secret "

/-- The stripped form of `paddedToken`. -/
def strippedToken : String := "secret"

/-! ### Claims -/

/-- C1 (counterexample): the claim says the chaining pointer *remains the
prior pointer* when item k is skipped.  In the code the skip branch runs
`last_img_path = out_path`, so on this run — one item whose output already
exists — the item is skipped (no events, no error) and yet the pointer ends
at that item's output path, not at the prior pointer (the anchor). -/
theorem C1_counterexample :
    (runRows provInline fetchOk [rowA] fsWithAlpha GPath.anchor).err = none ∧
    (runRows provInline fetchOk [rowA] fsWithAlpha GPath.anchor).events = [] ∧
    (runRows provInline fetchOk [rowA] fsWithAlpha GPath.anchor).lastImg =
      GPath.out nameA ∧
    GPath.out nameA ≠ GPath.anchor := by decide

/-- C1 (amended): in Variant B, after the loop has handled item k the
chaining pointer equals item k's primary output path in *both* cases —
when the item was processed and equally when it was skipped because its
output already existed (the skip branch advances the pointer to the
pre-existing output). -/
theorem C1_chaining_pointer_amended (provider : Provider) (fetch : Fetch)
    (fs : FS) (rows₁ : List WorkRow) (row : WorkRow)
    (h : (runRows provider fetch (rows₁ ++ [row]) fs GPath.anchor).err = none) :
    (runRows provider fetch (rows₁ ++ [row]) fs GPath.anchor).lastImg =
      row.outPath := by
  rw [runRows_lastImg provider fetch _ fs GPath.anchor h]
  simp

/-- Witness for C1 (amended): a concrete one-item run whose item is
skipped still ends with the pointer at that item's output path. -/
theorem C1_chaining_pointer_amended_witness :
    (runRows provInline fetchOk ([] ++ [rowA]) fsWithAlpha GPath.anchor).lastImg =
      rowA.outPath :=
  C1_chaining_pointer_amended provInline fetchOk fsWithAlpha [] rowA (by decide)

/-- C2: every provider call carries a reference image (the call is always
conditioned — the event records the `input_image` argument), and for the
first non-skipped item after a successfully handled prefix `rows₁` the
reference is the current pointer: the original anchor when no prior item
exists (`rows₁ = []`), else the output path of the nearest prior item
(the last row of `rows₁`, whether that item's output was produced by this
run or found pre-existing). -/
theorem C2_reference_selection (provider : Provider) (fetch : Fetch)
    (fs : FS) (rows₁ : List WorkRow) (row : WorkRow) (rows₂ : List WorkRow)
    (h₁ : (runRows provider fetch rows₁ fs GPath.anchor).err = none)
    (h₂ : FS.lookup (runRows provider fetch rows₁ fs GPath.anchor).fs
        row.outPath = none) :
    (∃ tail, (runRows provider fetch (rows₁ ++ row :: rows₂) fs GPath.anchor).events =
        (runRows provider fetch rows₁ fs GPath.anchor).events ++
          Event.providerCall (pyStrip row.prompt)
            (runRows provider fetch rows₁ fs GPath.anchor).lastImg :: tail) ∧
    (rows₁ = [] →
        (runRows provider fetch rows₁ fs GPath.anchor).lastImg = GPath.anchor) ∧
    (∀ r, rows₁.getLast? = some r →
        (runRows provider fetch rows₁ fs GPath.anchor).lastImg = r.outPath) := by
  refine ⟨?_, ?_, ?_⟩
  · have hev : (runRows provider fetch (rows₁ ++ row :: rows₂) fs GPath.anchor).events =
        (runRows provider fetch rows₁ fs GPath.anchor).events ++
          (runRows provider fetch (row :: rows₂)
            (runRows provider fetch rows₁ fs GPath.anchor).fs
            (runRows provider fetch rows₁ fs GPath.anchor).lastImg).events := by
      rw [runRows_append_ok provider fetch rows₁ (row :: rows₂) fs GPath.anchor h₁]
    cases hf : run_flux provider fetch (pyStrip row.prompt)
        (runRows provider fetch rows₁ fs GPath.anchor).lastImg with
    | error e =>
        refine ⟨[], ?_⟩
        rw [hev, runRows, processItem_err provider fetch _ _ row e h₂ hf]
    | ok b =>
        refine ⟨Event.write row.outPath b :: Event.sleepThrottle ::
          (runRows provider fetch rows₂
            (FS.write (runRows provider fetch rows₁ fs GPath.anchor).fs
              row.outPath b) row.outPath).events, ?_⟩
        rw [hev, runRows, processItem_run provider fetch _ _ row b h₂ hf]
        simp
  · intro hrow
    subst hrow
    simp [runRows]
  · intro r hr
    rw [runRows_lastImg provider fetch rows₁ fs GPath.anchor h₁, hr]

/-- Witness for C2: on a fresh run the first item's provider call uses the
anchor as reference. -/
theorem C2_reference_selection_witness :
    (∃ tail, (runRows provInline fetchOk ([] ++ rowA :: []) fsAnchorOnly GPath.anchor).events =
        (runRows provInline fetchOk [] fsAnchorOnly GPath.anchor).events ++
          Event.providerCall (pyStrip rowA.prompt)
            (runRows provInline fetchOk [] fsAnchorOnly GPath.anchor).lastImg :: tail) ∧
    (([] : List WorkRow) = [] →
        (runRows provInline fetchOk [] fsAnchorOnly GPath.anchor).lastImg = GPath.anchor) ∧
    (∀ r, ([] : List WorkRow).getLast? = some r →
        (runRows provInline fetchOk [] fsAnchorOnly GPath.anchor).lastImg = r.outPath) :=
  C2_reference_selection provInline fetchOk fsAnchorOnly [] rowA []
    (by decide) (by decide)

/-- C3: when every row's expected output file already exists, re-running
`main` performs no provider call and no write (only the idempotent
`mkdir`), leaves the file system byte-identical, and — given the anchor is
present and the work list non-empty — completes without error. -/
theorem C3_idempotent_rerun (provider : Provider) (fetch : Fetch)
    (rows : List WorkRow) (fs : FS)
    (h : ∀ row ∈ rows, (FS.lookup fs row.outPath).isSome = true) :
    (main provider fetch rows fs).fs = fs ∧
    (main provider fetch rows fs).events.all
        (fun e => !e.isProviderCall && !e.isWrite) = true ∧
    ((FS.lookup fs GPath.anchor).isSome = true → rows ≠ [] →
        (main provider fetch rows fs).err = none) := by
  cases hx : FS.lookup fs GPath.anchor with
  | none => simp [main, hx, Event.isProviderCall, Event.isWrite]
  | some b =>
      by_cases hr : rows = []
      · simp [main, hx, hr, Event.isProviderCall, Event.isWrite]
      · rw [main]
        simp only [hx, Option.isSome_some, if_true, hr, if_false]
        rw [runRows_all_present provider fetch rows fs GPath.anchor h]
        simp [Event.isProviderCall, Event.isWrite]

/-- Witness for C3: with `rowA`'s output already on disk, the re-run
changes nothing and calls no provider. -/
theorem C3_idempotent_rerun_witness :
    (main provInline fetchOk [rowA] fsWithAlpha).fs = fsWithAlpha ∧
    (main provInline fetchOk [rowA] fsWithAlpha).events.all
        (fun e => !e.isProviderCall && !e.isWrite) = true ∧
    ((FS.lookup fsWithAlpha GPath.anchor).isSome = true → [rowA] ≠ [] →
        (main provInline fetchOk [rowA] fsWithAlpha).err = none) :=
  C3_idempotent_rerun provInline fetchOk [rowA] fsWithAlpha (by decide)

/-- C4 (counterexample): the claim says a blank (whitespace-only) token
fails the check with `ConfigurationError`.  In the code the check is
`if not API_TOKEN`, which a non-empty whitespace string passes; the
`.strip()` happens only afterwards, so `" "` sails through and becomes the
empty token `""`. -/
theorem C4_counterexample :
    blankToken ≠ "" ∧ pyStrip blankToken = "" ∧
      tokenCheck (some blankToken) = Except.ok "" := by decide

/-- C4 (amended): the load-time check fails (before any provider call) iff
the credential is absent or the empty string; every non-empty token — a
whitespace-only one included — passes, and is stripped after the check. -/
theorem C4_token_check_amended (t : Option String) :
    (tokenCheck t = Except.error () ↔ t = none ∨ t = some "") ∧
    (∀ s : String, t = some s → s ≠ "" → tokenCheck t = Except.ok (pyStrip s)) := by
  constructor
  · cases t with
    | none => simp [tokenCheck]
    | some s => by_cases h : s = "" <;> simp [tokenCheck, h]
  · intro s hs hne
    subst hs
    simp [tokenCheck, hne]

/-- Witness for C4 (amended): a padded token passes and is stripped. -/
theorem C4_token_check_amended_witness :
    tokenCheck (some paddedToken) = Except.ok (pyStrip paddedToken) :=
  (C4_token_check_amended (some paddedToken)).2 paddedToken rfl (by decide)

/-- C5: a run whose work list is empty fails with a configuration error
(`SystemExit`), touches no file in the output directory (the only event is
the idempotent `mkdir` of the directory itself) and makes no provider
call. -/
theorem C5_empty_worklist (provider : Provider) (fetch : Fetch) (fs : FS) :
    ((main provider fetch [] fs).err.elim false RunError.isConfig) = true ∧
    (main provider fetch [] fs).fs = fs ∧
    (main provider fetch [] fs).events.all
        (fun e => !e.isProviderCall && !e.isWrite) = true := by
  cases hx : FS.lookup fs GPath.anchor <;>
    simp [main, hx, RunError.isConfig, Event.isProviderCall, Event.isWrite]

/-- C6: `run_flux` yields the image bytes for inline bytes, for an
http-prefixed URL string whose single fetch succeeds, and for a readable
stream; a failed fetch raises (non-2xx and network failure each mapped to
its error, with exactly one fetch — no retry, and never more than one
fetch overall); any other result shape — a non-http string included —
raises the unexpected-result error. -/
theorem C6_result_decoding (provider : Provider) (fetch : Fetch)
    (prompt : String) (img_path : GPath) :
    (∀ b, provider prompt img_path = FluxResult.bytes b →
        run_flux provider fetch prompt img_path = Except.ok b ∧
        run_flux_fetch_count provider prompt img_path = 0) ∧
    (∀ s, provider prompt img_path = FluxResult.str s →
        pyStartsWith s httpPrefix = true →
        run_flux_fetch_count provider prompt img_path = 1 ∧
        (∀ b, fetch s = FetchResult.ok b →
            run_flux provider fetch prompt img_path = Except.ok b) ∧
        (fetch s = FetchResult.httpStatusError →
            run_flux provider fetch prompt img_path =
              Except.error ProvErr.fetchHttpError) ∧
        (fetch s = FetchResult.networkFailure →
            run_flux provider fetch prompt img_path =
              Except.error ProvErr.fetchNetworkFailure)) ∧
    (∀ b, provider prompt img_path = FluxResult.stream b →
        run_flux provider fetch prompt img_path = Except.ok b ∧
        run_flux_fetch_count provider prompt img_path = 0) ∧
    ((provider prompt img_path = FluxResult.other ∨
      (∃ s, provider prompt img_path = FluxResult.str s ∧
          pyStartsWith s httpPrefix = false)) →
        run_flux provider fetch prompt img_path =
          Except.error ProvErr.unexpectedResultType) ∧
    run_flux_fetch_count provider prompt img_path ≤ 1 := by
  cases hp : provider prompt img_path with
  | bytes b => simp [run_flux, run_flux_fetch_count, hp]
  | stream b => simp [run_flux, run_flux_fetch_count, hp]
  | other => simp [run_flux, run_flux_fetch_count, hp]
  | str s =>
      by_cases hh : pyStartsWith s httpPrefix
      · cases hfe : fetch s <;>
          simp [run_flux, run_flux_fetch_count, hp, hh, hfe]
      · simp [run_flux, run_flux_fetch_count, hp, hh]

/-- Witness for C6: a URL result with a succeeding fetch yields the
fetched bytes with exactly one fetch. -/
theorem C6_result_decoding_witness :
    run_flux provUrl fetchOk promptA GPath.anchor = Except.ok bytesTwo ∧
      run_flux_fetch_count provUrl promptA GPath.anchor = 1 :=
  ⟨((C6_result_decoding provUrl fetchOk promptA GPath.anchor).2.1 urlA rfl
      (by decide)).2.1 bytesTwo rfl,
   ((C6_result_decoding provUrl fetchOk promptA GPath.anchor).2.1 urlA rfl
      (by decide)).1⟩

/-- C7: if, after a successfully handled prefix `rows₁`, the provider call
for the next item `row` fails, the whole run aborts with that exception:
the file system is exactly what the prefix left (prior outputs intact),
`row`'s output file is still absent, and the event trace ends with `row`'s
provider call — no write for `row` and nothing for any later item. -/
theorem C7_abort_on_provider_failure (provider : Provider) (fetch : Fetch)
    (fs : FS) (rows₁ : List WorkRow) (row : WorkRow) (rows₂ : List WorkRow)
    (e : ProvErr)
    (h₁ : (runRows provider fetch rows₁ fs GPath.anchor).err = none)
    (h₂ : FS.lookup (runRows provider fetch rows₁ fs GPath.anchor).fs
        row.outPath = none)
    (hf : run_flux provider fetch (pyStrip row.prompt)
        (runRows provider fetch rows₁ fs GPath.anchor).lastImg = Except.error e) :
    (runRows provider fetch (rows₁ ++ row :: rows₂) fs GPath.anchor).err = some e ∧
    (runRows provider fetch (rows₁ ++ row :: rows₂) fs GPath.anchor).fs =
      (runRows provider fetch rows₁ fs GPath.anchor).fs ∧
    FS.lookup (runRows provider fetch (rows₁ ++ row :: rows₂) fs GPath.anchor).fs
      row.outPath = none ∧
    (runRows provider fetch (rows₁ ++ row :: rows₂) fs GPath.anchor).events =
      (runRows provider fetch rows₁ fs GPath.anchor).events ++
        [Event.providerCall (pyStrip row.prompt)
          (runRows provider fetch rows₁ fs GPath.anchor).lastImg] := by
  rw [runRows_append_ok provider fetch rows₁ (row :: rows₂) fs GPath.anchor h₁,
      runRows, processItem_err provider fetch _ _ row e h₂ hf]
  simp [h₂]

/-- Witness for C7: with an unrecognised provider result on the first item,
the two-item run aborts at once: nothing written, the second item never
attempted. -/
theorem C7_abort_on_provider_failure_witness :
    (runRows provOther fetchOk ([] ++ rowA :: [rowB]) fsAnchorOnly GPath.anchor).err =
      some ProvErr.unexpectedResultType ∧
    (runRows provOther fetchOk ([] ++ rowA :: [rowB]) fsAnchorOnly GPath.anchor).fs =
      (runRows provOther fetchOk [] fsAnchorOnly GPath.anchor).fs ∧
    FS.lookup (runRows provOther fetchOk ([] ++ rowA :: [rowB]) fsAnchorOnly
      GPath.anchor).fs rowA.outPath = none ∧
    (runRows provOther fetchOk ([] ++ rowA :: [rowB]) fsAnchorOnly GPath.anchor).events =
      (runRows provOther fetchOk [] fsAnchorOnly GPath.anchor).events ++
        [Event.providerCall (pyStrip rowA.prompt)
          (runRows provOther fetchOk [] fsAnchorOnly GPath.anchor).lastImg] :=
  C7_abort_on_provider_failure provOther fetchOk fsAnchorOnly [] rowA [rowB]
    ProvErr.unexpectedResultType (by decide) (by decide) (by decide)

/-- C8: the event trace of any run of the loop is a sequence of
`providerCall; write; sleepThrottle` blocks (possibly closed by the lone
call of a failing item): the throttle pause follows every processed item
and occurs nowhere else; and a skipped item contributes no events at all —
in particular no pause. -/
theorem C8_throttle_discipline (provider : Provider) (fetch : Fetch)
    (rows : List WorkRow) (fs : FS) (last : GPath) :
    throttleShape (runRows provider fetch rows fs last).events = true ∧
    (∀ fs' last' row, (FS.lookup fs' row.outPath).isSome = true →
        (processItem provider fetch fs' last' row).events = []) := by
  refine ⟨runRows_throttleShape provider fetch rows fs last, ?_⟩
  intro fs' last' row h
  rw [processItem_skip provider fetch fs' last' row h]

/-- Witness for C8: a concrete two-item processed run is well-throttled,
and a concrete skipped item produces no events. -/
theorem C8_throttle_discipline_witness :
    throttleShape (runRows provInline fetchOk [rowA, rowB] fsAnchorOnly
      GPath.anchor).events = true ∧
    (processItem provInline fetchOk fsWithAlpha GPath.anchor rowA).events = [] :=
  ⟨(C8_throttle_discipline provInline fetchOk [rowA, rowB] fsAnchorOnly GPath.anchor).1,
   (C8_throttle_discipline provInline fetchOk [rowA, rowB] fsAnchorOnly GPath.anchor).2
      fsWithAlpha GPath.anchor rowA (by decide)⟩

/-! ### Helper lemmas about the conversion walk -/

theorem string_data_append (s t : String) : (s ++ t).data = s.data ++ t.data := by
  cases s; cases t; rfl

theorem optfs_lookup_write (fs : OptFS) (p q : String) (b : Bytes) :
    OptFS.lookup (OptFS.write fs p b) q =
      if p = q then some b else OptFS.lookup fs q := by
  induction fs with
  | nil => by_cases h : p = q <;> simp [OptFS.write, OptFS.lookup, h]
  | cons hd tl ih =>
      obtain ⟨r, c⟩ := hd
      by_cases hrp : r = p
      · subst hrp
        by_cases hq : r = q <;> simp [OptFS.write, OptFS.lookup, hq]
      · by_cases hrq : r = q <;> by_cases hpq : p = q <;>
          simp_all [OptFS.write, OptFS.lookup]

/-- `".png"` is never a suffix of anything ending in `".webp"`. -/
theorem png_not_suffix_of_webp (xs : List Char) :
    pngSuffix.data.isSuffixOf (xs ++ webpSuffix.data) = false := by
  rw [Bool.eq_false_iff]
  intro h
  rcases List.isSuffixOf_iff_suffix.mp h with ⟨t, ht⟩
  have hg := congrArg List.getLast? ht
  have e1 : pngSuffix.data = ['.', 'p', 'n', 'g'] := rfl
  have e2 : webpSuffix.data = ['.', 'w', 'e', 'b', 'p'] := rfl
  rw [e1, e2] at hg
  simp [List.getLast?_append] at hg

/-- A path of the form `stem ++ ".webp"` never passes the lower-cased
`".png"` test, so writing a `.webp` target can never touch a source file. -/
theorem webpPath_not_png (p : String) :
    pyEndsWith (pyLower (p ++ webpSuffix)) pngSuffix = false := by
  have hmap : webpSuffix.data.map Char.toLower = webpSuffix.data := by decide
  show pngSuffix.data.isSuffixOf ((p ++ webpSuffix).data.map Char.toLower) = false
  rw [string_data_append, List.map_append, hmap]
  exact png_not_suffix_of_webp _

/-- The walk never changes any file whose lower-cased path ends in
`".png"`: all its writes are `.webp` targets. -/
theorem optimize_preserves_png (convert : Convert) (files : List (String × String))
    (fs : OptFS) (q : String)
    (hq : pyEndsWith (pyLower q) pngSuffix = true) :
    OptFS.lookup (optimize_images convert files fs).1 q = OptFS.lookup fs q := by
  induction files generalizing fs with
  | nil => simp [optimize_images]
  | cons entry rest ih =>
      obtain ⟨subdir, file⟩ := entry
      by_cases ht : pyEndsWith (pyLower file) pngSuffix
      · simp only [optimize_images, ht, if_true]
        cases hop : OptFS.lookup fs (pyJoin subdir file) with
        | none => simpa [hop] using ih fs
        | some src =>
            cases hcv : convert src webpQuality with
            | error err => simpa [hop, hcv] using ih fs
            | ok out =>
                have hne : splitext_stem (pyJoin subdir file) ++ webpSuffix ≠ q := by
                  intro he
                  rw [← he] at hq
                  rw [webpPath_not_png] at hq
                  exact Bool.false_ne_true hq
                simp only [hop, hcv]
                rw [ih (OptFS.write fs (splitext_stem (pyJoin subdir file) ++ webpSuffix) out),
                    optfs_lookup_write]
                simp [hne]
      · simp only [optimize_images, ht, if_false]
        exact ih fs

/-- Every recognised file of the walked list is handled — its failure is
logged, or its sibling `.webp` is saved (encoding `webp`, quality 85) and
the conversion logged — independently of what happened to any other
file. -/
theorem optimize_handles_mem (convert : Convert) (files : List (String × String))
    (fs : OptFS) (subdir file : String)
    (hmem : (subdir, file) ∈ files)
    (ht : pyEndsWith (pyLower file) pngSuffix = true) :
    OptEvent.logFailed (pyJoin subdir file) ∈ (optimize_images convert files fs).2 ∨
    ∃ out, OptEvent.save (splitext_stem (pyJoin subdir file) ++ webpSuffix)
        webpFormat webpQuality out ∈ (optimize_images convert files fs).2 ∧
      OptEvent.logConverted (pyJoin subdir file)
        (splitext_stem (pyJoin subdir file) ++ webpSuffix) ∈
          (optimize_images convert files fs).2 := by
  induction files generalizing fs with
  | nil => cases hmem
  | cons entry rest ih =>
      rcases List.mem_cons.mp hmem with heq | hmem'
      · subst heq
        simp only [optimize_images, ht, if_true]
        cases hop : OptFS.lookup fs (pyJoin subdir file) with
        | none => left; simp [hop]
        | some src =>
            cases hcv : convert src webpQuality with
            | error err => left; simp [hop, hcv]
            | ok out =>
                right
                exact ⟨out, by simp [hop, hcv], by simp [hop, hcv]⟩
      · obtain ⟨sd, f⟩ := entry
        by_cases ht2 : pyEndsWith (pyLower f) pngSuffix
        · simp only [optimize_images, ht2, if_true]
          cases hop : OptFS.lookup fs (pyJoin sd f) with
          | none =>
              rcases ih fs hmem' with h | ⟨out, h1, h2⟩
              · left; simp [hop, h]
              · right; exact ⟨out, by simp [hop, h1], by simp [hop, h2]⟩
          | some src =>
              cases hcv : convert src webpQuality with
              | error err =>
                  rcases ih fs hmem' with h | ⟨out, h1, h2⟩
                  · left; simp [hop, hcv, h]
                  · right; exact ⟨out, by simp [hop, hcv, h1], by simp [hop, hcv, h2]⟩
              | ok out2 =>
                  rcases ih (OptFS.write fs (splitext_stem (pyJoin sd f) ++ webpSuffix) out2)
                      hmem' with h | ⟨out, h1, h2⟩
                  · left; simp [hop, hcv, h]
                  · right; exact ⟨out, by simp [hop, hcv, h1], by simp [hop, hcv, h2]⟩
        · simp only [optimize_images, ht2, if_false]
          exact ih fs hmem'

/-- A concrete subdirectory for the walk witnesses. -/
def dirD : String := "d"

/-- A concrete file name with an upper-case recognised extension. -/
def fileD : String := "Pic.PNG"

/-- The joined path of `dirD` and `fileD`. -/
def pathD : String := "d/Pic.PNG"

/-- The sibling `.webp` path of `pathD`. -/
def webpD : String := "d/Pic.webp"

/-- Concrete source bytes for the walk witnesses. -/
def srcD : Bytes := [5]

/-- Concrete stale target bytes for the walk witnesses. -/
def oldD : Bytes := [9]

/-- A conversion oracle that encodes by appending the quality value. -/
def convD : Convert := fun b q => Except.ok (b ++ [q])

/-- A walk list holding one recognised file. -/
def filesD : List (String × String) := [(dirD, fileD)]

/-- A file system holding the source file and a stale `.webp` target. -/
def fsD : OptFS := [(pathD, srcD), (webpD, oldD)]

/-- C9: over any directory tree (any walk list and file system) and any
conversion behaviour, the walk (a) never changes any file whose lower-cased
path ends in `.png` — in particular every source file is left untouched,
since a `.webp` write can never hit a `.png` path — and (b) handles every
file with the recognised extension: either its per-file failure is logged
(and, the statement being about every member, the walk still handles all
other files — no abort), or its sibling `.webp` file (same stem, target
encoding `webp`, fixed quality 85) is saved and the conversion logged. -/
theorem C9_conversion_walk (convert : Convert) (files : List (String × String))
    (fs : OptFS) :
    (∀ q, pyEndsWith (pyLower q) pngSuffix = true →
        OptFS.lookup (optimize_images convert files fs).1 q = OptFS.lookup fs q) ∧
    (∀ subdir file, (subdir, file) ∈ files →
        pyEndsWith (pyLower file) pngSuffix = true →
        OptEvent.logFailed (pyJoin subdir file) ∈ (optimize_images convert files fs).2 ∨
        ∃ out, OptEvent.save (splitext_stem (pyJoin subdir file) ++ webpSuffix)
            webpFormat webpQuality out ∈ (optimize_images convert files fs).2 ∧
          OptEvent.logConverted (pyJoin subdir file)
            (splitext_stem (pyJoin subdir file) ++ webpSuffix) ∈
              (optimize_images convert files fs).2) :=
  ⟨fun q hq => optimize_preserves_png convert files fs q hq,
   fun subdir file hmem ht => optimize_handles_mem convert files fs subdir file hmem ht⟩

/-- Witness for C9: one source file `d/Pic.PNG` is converted while the
source is preserved. -/
theorem C9_conversion_walk_witness :
    OptFS.lookup (optimize_images convD filesD fsD).1 pathD = OptFS.lookup fsD pathD ∧
    (OptEvent.logFailed (pyJoin dirD fileD) ∈ (optimize_images convD filesD fsD).2 ∨
      ∃ out, OptEvent.save (splitext_stem (pyJoin dirD fileD) ++ webpSuffix)
          webpFormat webpQuality out ∈ (optimize_images convD filesD fsD).2 ∧
        OptEvent.logConverted (pyJoin dirD fileD)
          (splitext_stem (pyJoin dirD fileD) ++ webpSuffix) ∈
            (optimize_images convD filesD fsD).2) :=
  ⟨(C9_conversion_walk convD filesD fsD).1 pathD (by decide),
   (C9_conversion_walk convD filesD fsD).2 dirD fileD (by decide) (by decide)⟩

/-- C10: the walk has no completion check.  (a) Every file with the
recognised extension is opened and handled on every run — the statement
carries no assumption whatsoever about the file system, so a pre-existing
`.webp` sibling never causes a skip; (b) concretely, when the `.webp`
target already exists with some old contents, the file is still converted
(a save event for the sibling path occurs) and the target is overwritten
with the new bytes. -/
theorem C10_unconditional_reconversion (convert : Convert)
    (files : List (String × String)) (fs : OptFS) :
    (∀ subdir file, (subdir, file) ∈ files →
        pyEndsWith (pyLower file) pngSuffix = true →
        OptEvent.logFailed (pyJoin subdir file) ∈ (optimize_images convert files fs).2 ∨
        ∃ out, OptEvent.save (splitext_stem (pyJoin subdir file) ++ webpSuffix)
            webpFormat webpQuality out ∈ (optimize_images convert files fs).2) ∧
    (∀ subdir file rest src out old,
        pyEndsWith (pyLower file) pngSuffix = true →
        OptFS.lookup fs (pyJoin subdir file) = some src →
        convert src webpQuality = Except.ok out →
        OptFS.lookup fs (splitext_stem (pyJoin subdir file) ++ webpSuffix) = some old →
        OptEvent.save (splitext_stem (pyJoin subdir file) ++ webpSuffix)
            webpFormat webpQuality out ∈
          (optimize_images convert ((subdir, file) :: rest) fs).2 ∧
        OptFS.lookup (optimize_images convert [(subdir, file)] fs).1
          (splitext_stem (pyJoin subdir file) ++ webpSuffix) = some out) := by
  constructor
  · intro subdir file hmem ht
    rcases optimize_handles_mem convert files fs subdir file hmem ht with h | ⟨out, h1, _⟩
    · exact Or.inl h
    · exact Or.inr ⟨out, h1⟩
  · intro subdir file rest src out old ht hsrc hcv _
    constructor
    · simp [optimize_images, ht, hsrc, hcv]
    · simp [optimize_images, ht, hsrc, hcv, optfs_lookup_write]

/-- Witness for C10: with `d/Pic.webp` already present, `d/Pic.PNG` is
converted anyway and the stale target is overwritten. -/
theorem C10_unconditional_reconversion_witness :
    (OptEvent.logFailed (pyJoin dirD fileD) ∈ (optimize_images convD filesD fsD).2 ∨
      ∃ out, OptEvent.save (splitext_stem (pyJoin dirD fileD) ++ webpSuffix)
          webpFormat webpQuality out ∈ (optimize_images convD filesD fsD).2) ∧
    (OptEvent.save (splitext_stem (pyJoin dirD fileD) ++ webpSuffix)
        webpFormat webpQuality (srcD ++ [webpQuality]) ∈
      (optimize_images convD ((dirD, fileD) :: []) fsD).2 ∧
    OptFS.lookup (optimize_images convD [(dirD, fileD)] fsD).1
      (splitext_stem (pyJoin dirD fileD) ++ webpSuffix) = some (srcD ++ [webpQuality])) :=
  ⟨(C10_unconditional_reconversion convD filesD fsD).1 dirD fileD (by decide) (by decide),
   (C10_unconditional_reconversion convD filesD fsD).2 dirD fileD [] srcD
      (srcD ++ [webpQuality]) oldD (by decide) (by decide) (by decide) (by decide)⟩

end NurNatur
